import Mathlib

set_option maxHeartbeats 1000000

/-!
Shallow embedding of the safety-gated action subsystem of the Heimdallr
repository: `app/safety_guard.py`, `app/action_executor.py`,
`app/action_recommender.py`, and the `ActionSettings` dataclass of
`app/config.py`.

Python `datetime` values are modelled as `Int` seconds since the Unix epoch
(UTC); `timedelta` values as second counts.  The Python code calls
`datetime.now(timezone.utc)` inside each operation; the embedding threads the
current time through as an explicit `now : Int` parameter.  Python `dict`s
keyed by service name are modelled as association lists with unique keys
(`assocLookup` / `assocSet`), mirroring lookup and in-place update.
-/

/-- The ActionType enum of `app/action_recommender.py`. -/
inductive ActionType where
  | RESTART_SERVICE
  | RESTART_INSTANCE
  | REDEPLOY
  | SCALE_UP
  | SCALE_DOWN
  | CLEAR_CACHE
  | ROTATE_LOGS
  | NOTIFY
  | ESCALATE
  | NO_ACTION
deriving DecidableEq, Repr

/-- The string value of each ActionType member, as in the Python enum. -/
def ActionType.value : ActionType → String
  | .RESTART_SERVICE => "restart_service"
  | .RESTART_INSTANCE => "restart_instance"
  | .REDEPLOY => "redeploy"
  | .SCALE_UP => "scale_up"
  | .SCALE_DOWN => "scale_down"
  | .CLEAR_CACHE => "clear_cache"
  | .ROTATE_LOGS => "rotate_logs"
  | .NOTIFY => "notify"
  | .ESCALATE => "escalate"
  | .NO_ACTION => "no_action"

/-- The ActionRisk enum of `app/action_recommender.py`. -/
inductive ActionRisk where
  | LOW
  | MEDIUM
  | HIGH
  | CRITICAL
deriving DecidableEq, Repr

/-- The SafetyCheckResult enum of `app/safety_guard.py`. -/
inductive SafetyCheckResult where
  | ALLOWED
  | BLOCKED_RATE_LIMIT
  | BLOCKED_COOLDOWN
  | BLOCKED_CHANGE_FREEZE
  | BLOCKED_HIGH_RISK
  | BLOCKED_CIRCUIT_OPEN
  | REQUIRES_APPROVAL
deriving DecidableEq, Repr

/-- The ActionSettings dataclass of `app/config.py`. -/
structure ActionSettings where
  allow_restart : Bool
  allow_redeploy : Bool
  max_restarts_per_hour : Nat
  cooldown_minutes : Nat
  require_approval_for : List String
deriving DecidableEq, Repr

/-- Default field values of ActionSettings in `app/config.py`. -/
def default_action_settings : ActionSettings :=
  { allow_restart := true
    allow_redeploy := false
    max_restarts_per_hour := 3
    cooldown_minutes := 10
    require_approval_for := ["redeploy", "terminate"] }

/-- The SafetyViolation dataclass of `app/safety_guard.py`. -/
structure SafetyViolation where
  check_type : SafetyCheckResult
  action_type : ActionType
  target_service : String
  reason : String
  timestamp : Int
  can_override : Bool
deriving DecidableEq, Repr

/-- The ActionRecord dataclass of `app/safety_guard.py`. -/
structure ActionRecord where
  action_type : ActionType
  target_service : String
  timestamp : Int
  success : Bool
deriving DecidableEq, Repr

/-- The ChangeFreeze dataclass of `app/safety_guard.py`; `allowed_actions`
is a Python set, modelled as a list queried only through membership. -/
structure ChangeFreeze where
  name : String
  start : Int
  end_ : Int
  allowed_actions : List ActionType
  reason : String
deriving DecidableEq, Repr

/-- ChangeFreeze.is_active: `self.start <= now <= self.end`. -/
def ChangeFreeze.is_active (f : ChangeFreeze) (now : Int) : Bool :=
  decide (f.start ≤ now) && decide (now ≤ f.end_)

/-- One entry of SafetyGuard._maintenance_windows: weekday numbers
(Monday = 0) and a start/end given as seconds of the UTC day. -/
structure MaintWindow where
  days : List Int
  start : Int
  end_ : Int
deriving DecidableEq, Repr

/-- The mutable state of a SafetyGuard instance (`__init__` fields). -/
structure GuardState where
  settings : ActionSettings
  action_history : List ActionRecord
  change_freezes : List ChangeFreeze
  circuit_breakers : List (String × Nat)
  circuit_last_failure : List (String × Int)
  violations : List SafetyViolation
  maintenance_windows : List MaintWindow
deriving DecidableEq, Repr

/-- SafetyGuard._max_history. -/
def max_history : Nat := 10000

/-- SafetyGuard._circuit_threshold. -/
def circuit_threshold : Nat := 3

/-- SafetyGuard._circuit_reset_after (30 minutes), in seconds. -/
def circuit_reset_after : Int := 1800

/-- SafetyGuard._max_violations. -/
def max_violations : Nat := 500

/-- Initial SafetyGuard state: empty history, freezes, breakers and
violations, and the default maintenance window (2 AM - 5 AM UTC,
weekdays 0-4). -/
def init_guard_state (settings : ActionSettings) : GuardState :=
  { settings := settings
    action_history := []
    change_freezes := []
    circuit_breakers := []
    circuit_last_failure := []
    violations := []
    maintenance_windows := [{ days := [0, 1, 2, 3, 4], start := 7200, end_ := 18000 }] }

/-- Dictionary lookup on an association list (Python `d.get(k)` / `k in d`). -/
def assocLookup {α : Type} (l : List (String × α)) (k : String) : Option α :=
  match l with
  | [] => none
  | (k', v) :: rest => if k' = k then some v else assocLookup rest k

/-- Dictionary update on an association list (Python `d[k] = v`). -/
def assocSet {α : Type} (l : List (String × α)) (k : String) (v : α) :
    List (String × α) :=
  match l with
  | [] => [(k, v)]
  | (k', v') :: rest =>
    if k' = k then (k, v) :: rest else (k', v') :: assocSet rest k v

/-- Python datetime.weekday() of a Unix timestamp: Monday = 0.  The epoch
(1970-01-01) was a Thursday, weekday 3. -/
def weekday (t : Int) : Int := (t.ediv 86400 + 3).emod 7

/-- Python datetime.time() of a Unix timestamp, as seconds of the UTC day. -/
def secondsOfDay (t : Int) : Int := t.emod 86400

/-- SafetyGuard._is_maintenance_window: any configured window whose weekday
list contains today's weekday and whose start/end bracket the current
time of day. -/
def is_maintenance_window (now : Int) (windows : List MaintWindow) : Bool :=
  windows.any fun w =>
    decide (weekday now ∈ w.days) &&
      (decide (w.start ≤ secondsOfDay now) && decide (secondsOfDay now ≤ w.end_))

/-- SafetyGuard._get_active_freeze: first change freeze active at `now`. -/
def get_active_freeze (now : Int) (freezes : List ChangeFreeze) :
    Option ChangeFreeze :=
  freezes.find? fun f => f.is_active now

/-- The three rate-limited kinds named in _check_rate_limit and
_check_cooldown. -/
def rate_limited_kinds : List ActionType :=
  [.RESTART_SERVICE, .RESTART_INSTANCE, .REDEPLOY]

/-- SafetyGuard._check_rate_limit: true when within limits.  Counts records
of the same kind on the same service strictly inside the trailing hour
and compares against settings.max_restarts_per_hour. -/
def check_rate_limit (now : Int) (action_type : ActionType)
    (target_service : String) (history : List ActionRecord)
    (settings : ActionSettings) : Bool :=
  if action_type ∈ rate_limited_kinds then
    let cutoff := now - 3600
    let count := (history.filter fun r =>
      decide (r.target_service = target_service) &&
        decide (r.action_type = action_type) && decide (cutoff < r.timestamp)).length
    decide (count < settings.max_restarts_per_hour)
  else true

/-- SafetyGuard._check_cooldown: true when the cooldown period has passed,
i.e. no record of the same kind on the same service lies strictly inside
the trailing cooldown window. -/
def check_cooldown (now : Int) (action_type : ActionType)
    (target_service : String) (history : List ActionRecord)
    (settings : ActionSettings) : Bool :=
  if action_type ∈ rate_limited_kinds then
    let cutoff := now - (settings.cooldown_minutes : Int) * 60
    let recent := history.filter fun r =>
      decide (r.target_service = target_service) &&
        decide (r.action_type = action_type) && decide (cutoff < r.timestamp)
    decide (recent.length = 0)
  else true

/-- SafetyGuard._is_circuit_open.  Returns the query answer together with
the (possibly lazily reset) breaker map: when the counter reached the
threshold but more than circuit_reset_after elapsed since the last
failure, the counter is reset to 0 and the query answers false. -/
def is_circuit_open (now : Int) (service : String)
    (breakers : List (String × Nat)) (last_failure : List (String × Int)) :
    Bool × List (String × Nat) :=
  match assocLookup breakers service with
  | none => (false, breakers)
  | some failures =>
    if failures < circuit_threshold then (false, breakers)
    else
      match assocLookup last_failure service with
      | some last =>
        if circuit_reset_after < now - last then (false, assocSet breakers service 0)
        else (true, breakers)
      | none => (true, breakers)

/-- Append with the bounded-log eviction of SafetyGuard._record_violation:
append, then pop the oldest entry when the cap is exceeded. -/
def push_bounded (l : List SafetyViolation) (v : SafetyViolation) (cap : Nat) :
    List SafetyViolation :=
  let l2 := l ++ [v]
  if cap < l2.length then l2.drop 1 else l2

/-- SafetyGuard._record_violation. -/
def record_violation (now : Int) (check_type : SafetyCheckResult)
    (action_type : ActionType) (target_service : String) (reason : String)
    (can_override : Bool) (s : GuardState) : GuardState :=
  let v : SafetyViolation :=
    { check_type := check_type, action_type := action_type,
      target_service := target_service, reason := reason,
      timestamp := now, can_override := can_override }
  { s with violations := push_bounded s.violations v max_violations }

/-- The tail of SafetyGuard.check_action after the circuit-breaker and
change-freeze checks: rate limit, cooldown, high-risk maintenance-window
gate, then the configured approval list. -/
def check_action_tail (now : Int) (action_type : ActionType)
    (target_service : String) (risk_level : ActionRisk) (s : GuardState) :
    SafetyCheckResult × GuardState :=
  if check_rate_limit now action_type target_service s.action_history s.settings = false then
    (.BLOCKED_RATE_LIMIT,
      record_violation now .BLOCKED_RATE_LIMIT action_type target_service
        ("Rate limit exceeded for " ++ action_type.value ++ " on " ++ target_service)
        false s)
  else if check_cooldown now action_type target_service s.action_history s.settings = false then
    (.BLOCKED_COOLDOWN,
      record_violation now .BLOCKED_COOLDOWN action_type target_service
        ("Cooldown active for " ++ target_service) false s)
  else if (risk_level = .HIGH ∨ risk_level = .CRITICAL) ∧
      is_maintenance_window now s.maintenance_windows = false then
    (.REQUIRES_APPROVAL,
      record_violation now .BLOCKED_HIGH_RISK action_type target_service
        ("High-risk action " ++ action_type.value ++ " requires maintenance window")
        true s)
  else if action_type.value ∈ s.settings.require_approval_for then
    (.REQUIRES_APPROVAL, s)
  else (.ALLOWED, s)

/-- SafetyGuard.check_action: the gating decision together with the updated
guard state (lazy circuit reset and the recorded violation, if any). -/
def check_action (now : Int) (action_type : ActionType)
    (target_service : String) (risk_level : ActionRisk) (s : GuardState) :
    SafetyCheckResult × GuardState :=
  let co := is_circuit_open now target_service s.circuit_breakers s.circuit_last_failure
  let s1 : GuardState := { s with circuit_breakers := co.2 }
  if co.1 then
    (.BLOCKED_CIRCUIT_OPEN,
      record_violation now .BLOCKED_CIRCUIT_OPEN action_type target_service
        ("Circuit breaker open for " ++ target_service) false s1)
  else
    match get_active_freeze now s1.change_freezes with
    | some freeze =>
      if action_type ∈ freeze.allowed_actions then
        check_action_tail now action_type target_service risk_level s1
      else
        (.BLOCKED_CHANGE_FREEZE,
          record_violation now .BLOCKED_CHANGE_FREEZE action_type target_service
            ("Change freeze active: " ++ freeze.name) false s1)
    | none => check_action_tail now action_type target_service risk_level s1

/-- SafetyGuard._record_failure: increment the per-service counter and stamp
the failure time. -/
def record_failure (now : Int) (service : String) (s : GuardState) : GuardState :=
  { s with
    circuit_breakers := assocSet s.circuit_breakers service
      ((assocLookup s.circuit_breakers service).getD 0 + 1)
    circuit_last_failure := assocSet s.circuit_last_failure service now }

/-- SafetyGuard._record_success: reset the counter to 0 when the service has
an entry. -/
def record_success (service : String) (s : GuardState) : GuardState :=
  match assocLookup s.circuit_breakers service with
  | some _ => { s with circuit_breakers := assocSet s.circuit_breakers service 0 }
  | none => s

/-- SafetyGuard.record_action: append to the bounded action history, then
update the circuit breaker according to success. -/
def record_action (now : Int) (action_type : ActionType)
    (target_service : String) (success : Bool) (s : GuardState) : GuardState :=
  let h := s.action_history ++
    [{ action_type := action_type, target_service := target_service,
       timestamp := now, success := success }]
  let h := if max_history < h.length then h.drop 1 else h
  let s1 := { s with action_history := h }
  if success then record_success target_service s1
  else record_failure now target_service s1

/-- Modelled from the wording of claim C1: first-match evaluation of the
seven gating conditions, all evaluated on the pre-call state, returning at
the first condition that holds. -/
def check_action_priority (now : Int) (action_type : ActionType)
    (target_service : String) (risk_level : ActionRisk) (s : GuardState) :
    SafetyCheckResult :=
  if (is_circuit_open now target_service s.circuit_breakers s.circuit_last_failure).1 then
    .BLOCKED_CIRCUIT_OPEN
  else if (match get_active_freeze now s.change_freezes with
           | some freeze => decide (action_type ∉ freeze.allowed_actions)
           | none => false) then
    .BLOCKED_CHANGE_FREEZE
  else if check_rate_limit now action_type target_service s.action_history s.settings = false then
    .BLOCKED_RATE_LIMIT
  else if check_cooldown now action_type target_service s.action_history s.settings = false then
    .BLOCKED_COOLDOWN
  else if (risk_level = .HIGH ∨ risk_level = .CRITICAL) ∧
      is_maintenance_window now s.maintenance_windows = false then
    .REQUIRES_APPROVAL
  else if action_type.value ∈ s.settings.require_approval_for then
    .REQUIRES_APPROVAL
  else .ALLOWED

/-- Modelled from the code's cascade in check_action: the violation the call
records, when it records one (the BLOCKED_HIGH_RISK entry is recorded on
the high-risk path even though that path returns REQUIRES_APPROVAL). -/
def check_action_tail_violation (now : Int) (action_type : ActionType)
    (target_service : String) (risk_level : ActionRisk) (s : GuardState) :
    Option SafetyViolation :=
  if check_rate_limit now action_type target_service s.action_history s.settings = false then
    some { check_type := .BLOCKED_RATE_LIMIT, action_type := action_type,
           target_service := target_service,
           reason := "Rate limit exceeded for " ++ action_type.value ++ " on " ++ target_service,
           timestamp := now, can_override := false }
  else if check_cooldown now action_type target_service s.action_history s.settings = false then
    some { check_type := .BLOCKED_COOLDOWN, action_type := action_type,
           target_service := target_service,
           reason := "Cooldown active for " ++ target_service,
           timestamp := now, can_override := false }
  else if (risk_level = .HIGH ∨ risk_level = .CRITICAL) ∧
      is_maintenance_window now s.maintenance_windows = false then
    some { check_type := .BLOCKED_HIGH_RISK, action_type := action_type,
           target_service := target_service,
           reason := "High-risk action " ++ action_type.value ++ " requires maintenance window",
           timestamp := now, can_override := true }
  else none

/-- Companion of check_action_tail_violation for the leading circuit-breaker
and change-freeze checks. -/
def check_action_violation (now : Int) (action_type : ActionType)
    (target_service : String) (risk_level : ActionRisk) (s : GuardState) :
    Option SafetyViolation :=
  if (is_circuit_open now target_service s.circuit_breakers s.circuit_last_failure).1 then
    some { check_type := .BLOCKED_CIRCUIT_OPEN, action_type := action_type,
           target_service := target_service,
           reason := "Circuit breaker open for " ++ target_service,
           timestamp := now, can_override := false }
  else
    match get_active_freeze now s.change_freezes with
    | some freeze =>
      if action_type ∈ freeze.allowed_actions then
        check_action_tail_violation now action_type target_service risk_level s
      else
        some { check_type := .BLOCKED_CHANGE_FREEZE, action_type := action_type,
               target_service := target_service,
               reason := "Change freeze active: " ++ freeze.name,
               timestamp := now, can_override := false }
    | none => check_action_tail_violation now action_type target_service risk_level s

/-- Results of check_action that claim C3 calls BLOCKED_* values. -/
def is_blocked_result : SafetyCheckResult → Bool
  | .BLOCKED_CIRCUIT_OPEN => true
  | .BLOCKED_CHANGE_FREEZE => true
  | .BLOCKED_RATE_LIMIT => true
  | .BLOCKED_COOLDOWN => true
  | _ => false

/-- The ExecutionStatus enum of `app/action_executor.py`. -/
inductive ExecutionStatus where
  | PENDING
  | RUNNING
  | SUCCESS
  | FAILED
  | SKIPPED
  | ROLLED_BACK
deriving DecidableEq, Repr

/-- Projection of the parameters dict of an ActionRecommendation onto the
keys the core reads: service_type, app_id, branch, instance_id and
wait_for_recovery in the executor, error_fingerprint and error_category
written by the recommender. -/
structure ActionParams where
  service_type : Option String := none
  app_id : Option String := none
  branch : Option String := none
  instance_id : Option String := none
  wait_for_recovery : Bool := false
  error_fingerprint : Option String := none
  error_category : Option String := none
deriving DecidableEq, Repr

/-- The ActionRecommendation dataclass of `app/action_recommender.py`
(the unused prerequisites list is omitted). -/
structure ActionRecommendation where
  action_type : ActionType
  target_service : String
  risk_level : ActionRisk
  confidence : ℚ
  rationale : String
  requires_approval : Bool := false
  estimated_downtime_s : Nat := 0
  parameters : ActionParams := {}
  created_at : Int := 0
deriving DecidableEq, Repr

/-- The ActionPlan dataclass of `app/action_recommender.py`. -/
structure ActionPlan where
  plan_id : String
  trigger_source : String
  actions : List ActionRecommendation
  created_at : Int := 0
  approved : Bool := false
  approved_by : Option String := none
  executed : Bool := false
  execution_result : Option String := none
deriving DecidableEq, Repr

/-- ActionPlan.requires_approval: any action requires approval. -/
def ActionPlan.plan_requires_approval (p : ActionPlan) : Bool :=
  p.actions.any (fun a => a.requires_approval)

/-- The ExecutionResult dataclass of `app/action_executor.py`; dict values in
details are modelled as strings. -/
structure ExecutionResult where
  action_type : ActionType
  target_service : String
  status : ExecutionStatus
  message : String := ""
  started_at : Option Int := none
  completed_at : Option Int := none
  details : List (String × String) := []
deriving DecidableEq, Repr

/-- The PlanExecutionResult dataclass of `app/action_executor.py`. -/
structure PlanExecutionResult where
  plan_id : String
  overall_status : ExecutionStatus
  action_results : List ExecutionResult
  started_at : Int
  completed_at : Option Int := none
  rollback_performed : Bool := false
  rollback_result : Option String := none
deriving DecidableEq, Repr

/-- PlanExecutionResult.success_count. -/
def success_count (rs : List ExecutionResult) : Nat :=
  (rs.filter fun r => decide (r.status = .SUCCESS)).length

/-- PlanExecutionResult.failure_count. -/
def failure_count (rs : List ExecutionResult) : Nat :=
  (rs.filter fun r => decide (r.status = .FAILED)).length

/-- The Cloud Provider API collaborator consumed by the executor.  A reboot
answers success as a Bool; a deployment start answers an optional job id
(None or the empty string signal failure, following Python truthiness); the
instance_recovery_seconds field abstracts the observable outcome of the
get_instance_status polling loop in _wait_for_instance_recovery (some n:
healthy after n seconds within the 300 s timeout; none: timeout). -/
structure AWSClient where
  reboot_instance : String → Bool
  start_amplify_deployment : String → String → Option String
  instance_recovery_seconds : String → Option Nat

/-- Python truthiness of an optional string: None and the empty string are
falsy. -/
def truthy_str (o : Option String) : Bool :=
  match o with
  | none => false
  | some s => decide (s ≠ "")

/-- Helper of str_contains: the first list is a prefix of the second. -/
def starts_with : List Char → List Char → Bool
  | [], _ => true
  | _ :: _, [] => false
  | p :: ps, c :: cs => decide (p = c) && starts_with ps cs

/-- Helper of str_contains: the first list occurs inside the second. -/
def contains_sub (sub : List Char) : List Char → Bool
  | [] => starts_with sub []
  | c :: cs => starts_with sub (c :: cs) || contains_sub sub cs

/-- Python `sub in s` on strings. -/
def str_contains (s sub : String) : Bool := contains_sub sub.toList s.toList

/-- ActionExecutor._wait_for_instance_recovery: the loop only records
recovery details on the result; status and message are untouched. -/
def wait_for_instance_recovery (client : AWSClient) (instance_id : String)
    (r : ExecutionResult) : ExecutionResult :=
  match client.instance_recovery_seconds instance_id with
  | some n => { r with details := r.details ++ [("recovery_time_s", toString n)] }
  | none => { r with details := r.details ++ [("recovery_timeout", "True")] }

/-- ActionExecutor._restart_service. -/
def restart_service_exec (client : AWSClient) (a : ActionRecommendation)
    (r : ExecutionResult) : ExecutionResult :=
  let params := a.parameters
  if str_contains a.target_service.toLower "amplify" ||
      decide (params.service_type = some "amplify") then
    if truthy_str params.app_id = false then
      { r with status := .FAILED, message := "No app_id provided for Amplify restart" }
    else
      let app_id := params.app_id.getD ""
      let branch := params.branch.getD "main"
      let job_id := client.start_amplify_deployment app_id branch
      if truthy_str job_id then
        { r with
          status := ExecutionStatus.SUCCESS
          message := "Deployment started: job " ++ job_id.getD ""
          details := r.details ++ [("job_id", job_id.getD "")] }
      else { r with status := .FAILED, message := "Failed to start Amplify deployment" }
  else
    if truthy_str params.instance_id then
      let iid := params.instance_id.getD ""
      if client.reboot_instance iid then
        { r with status := .SUCCESS, message := "Instance " ++ iid ++ " reboot initiated" }
      else { r with status := .FAILED, message := "Failed to reboot instance " ++ iid }
    else { r with status := .FAILED, message := "No instance_id provided for EC2 restart" }

/-- ActionExecutor._restart_instance. -/
def restart_instance_exec (client : AWSClient) (a : ActionRecommendation)
    (r : ExecutionResult) : ExecutionResult :=
  if truthy_str a.parameters.instance_id = false then
    { r with status := .FAILED, message := "No instance_id provided" }
  else
    let iid := a.parameters.instance_id.getD ""
    if client.reboot_instance iid then
      let r1 := { r with
        status := ExecutionStatus.SUCCESS
        message := "Instance " ++ iid ++ " reboot initiated"
        details := r.details ++ [("instance_id", iid)] }
      if a.parameters.wait_for_recovery then
        wait_for_instance_recovery client iid r1
      else r1
    else { r with status := .FAILED, message := "Failed to reboot instance " ++ iid }

/-- ActionExecutor._redeploy. -/
def redeploy_exec (client : AWSClient) (a : ActionRecommendation)
    (r : ExecutionResult) : ExecutionResult :=
  let app_id := a.parameters.app_id
  let branch := a.parameters.branch.getD "main"
  if truthy_str app_id = false then
    { r with status := .FAILED, message := "No app_id provided for redeployment" }
  else
    let aid := app_id.getD ""
    let job_id := client.start_amplify_deployment aid branch
    if truthy_str job_id then
      { r with
        status := ExecutionStatus.SUCCESS
        message := "Deployment started on " ++ branch ++ ": job " ++ job_id.getD ""
        details := r.details ++ [("job_id", job_id.getD ""), ("branch", branch)] }
    else
      { r with
        status := ExecutionStatus.FAILED
        message := "Failed to start deployment for " ++ aid ++ "/" ++ branch }

/-- ActionExecutor._execute_action: per-action dispatch.  Collaborator
failure is signalled through the client's return values; the surrounding
try/except that converts a raised exception into a FAILED result is covered
by the same uniform failure handling (spec section 6). -/
def execute_action (client : AWSClient) (now : Int) (a : ActionRecommendation)
    (dry_run : Bool) : ExecutionResult :=
  let r : ExecutionResult :=
    { action_type := a.action_type, target_service := a.target_service,
      status := .RUNNING, started_at := some now }
  let r :=
    if dry_run then
      { r with
        status := ExecutionStatus.SUCCESS
        message := "Dry run - no changes made"
        details := r.details ++ [("dry_run", "True")] }
    else
      match a.action_type with
      | .RESTART_SERVICE => restart_service_exec client a r
      | .RESTART_INSTANCE => restart_instance_exec client a r
      | .REDEPLOY => redeploy_exec client a r
      | .NOTIFY => { r with status := ExecutionStatus.SUCCESS, message := "Notification queued" }
      | .ESCALATE => { r with status := ExecutionStatus.SUCCESS, message := "Escalation queued" }
      | .NO_ACTION => { r with status := ExecutionStatus.SKIPPED, message := "No action required" }
      | k => { r with
               status := ExecutionStatus.SKIPPED
               message := "Action type " ++ k.value ++ " not implemented" }
  { r with completed_at := some now }

/-- Whether the pre-execution callback, when configured, tells the executor
to skip the action (`if not self.pre_execution_callback(action)`). -/
def pre_skips (pre_cb : Option (ActionRecommendation → Bool))
    (a : ActionRecommendation) : Bool :=
  match pre_cb with
  | some f => !(f a)
  | none => false

/-- The action loop of ActionExecutor.execute_plan.  Returns the
action_results list, the list of results passed to the post-execution
callback (in call order), and whether the loop halted early on a FAILED
action with stop_on_failure. -/
def execute_plan_loop (client : AWSClient)
    (pre_cb : Option (ActionRecommendation → Bool)) (now : Int)
    (dry_run stop_on_failure : Bool) :
    List ActionRecommendation →
      List ExecutionResult × List ExecutionResult × Bool
  | [] => ([], [], false)
  | a :: rest =>
    if pre_skips pre_cb a then
      let skipped : ExecutionResult :=
        { action_type := a.action_type, target_service := a.target_service,
          status := .SKIPPED, message := "Skipped by pre-execution callback" }
      let t := execute_plan_loop client pre_cb now dry_run stop_on_failure rest
      (skipped :: t.1, t.2.1, t.2.2)
    else
      let r := execute_action client now a dry_run
      if r.status = ExecutionStatus.FAILED ∧ stop_on_failure = true then
        ([r], [r], true)
      else
        let t := execute_plan_loop client pre_cb now dry_run stop_on_failure rest
        (r :: t.1, r :: t.2.1, t.2.2)

/-- ActionExecutor.execute_plan.  The first component is the returned
PlanExecutionResult; the second is the post-execution callback trace (the
results handed to the callback, in order). -/
def execute_plan (client : AWSClient)
    (pre_cb : Option (ActionRecommendation → Bool)) (now : Int)
    (plan : ActionPlan) (dry_run : Bool) (stop_on_failure : Bool) :
    PlanExecutionResult × List ExecutionResult :=
  let t := execute_plan_loop client pre_cb now dry_run stop_on_failure plan.actions
  let results := t.1
  let halted := t.2.2
  let overall :=
    if halted then ExecutionStatus.FAILED
    else if 0 < failure_count results then ExecutionStatus.FAILED
    else if success_count results = plan.actions.length then ExecutionStatus.SUCCESS
    else ExecutionStatus.SUCCESS
  ({ plan_id := plan.plan_id, overall_status := overall,
     action_results := results, started_at := now, completed_at := some now },
   t.2.1)

/-- ActionExecutor.execute_single_action from `app/action_executor.py`.
The first expression the body evaluates,
risk_level=action.risk_level if hasattr(action, 'risk_level') else None,
reads the local variable `action` before the assignment that creates it, so
every call raises UnboundLocalError before any dispatch happens; the
embedding returns that error. -/
def execute_single_action (_client : AWSClient) (_now : Int)
    (_action_type : ActionType) (_target_service : String)
    (_parameters : ActionParams) (_dry_run : Bool) :
    Except String ExecutionResult :=
  Except.error "UnboundLocalError: local variable action referenced before assignment"

/-- The RecommendedAction enum of `app/error_analyzer.py`. -/
inductive RecommendedAction where
  | RESTART_SERVICE
  | REDEPLOY
  | SCALE_UP
  | CHECK_DEPENDENCIES
  | FIX_CONFIGURATION
  | INVESTIGATE
  | ESCALATE
  | IGNORE
deriving DecidableEq, Repr

/-- The ErrorSeverity enum of `app/log_collector.py`. -/
inductive ErrorSeverity where
  | CRITICAL
  | ERROR
  | WARNING
  | INFO
deriving DecidableEq, Repr

/-- The string value of each ErrorSeverity member. -/
def ErrorSeverity.value : ErrorSeverity → String
  | .CRITICAL => "critical"
  | .ERROR => "error"
  | .WARNING => "warning"
  | .INFO => "info"

/-- The ErrorCategory enum of `app/error_analyzer.py`. -/
inductive ErrorCategory where
  | INFRASTRUCTURE
  | APPLICATION
  | CONFIGURATION
  | DEPENDENCY
  | PERFORMANCE
  | SECURITY
  | DATA
  | UNKNOWN
deriving DecidableEq, Repr

/-- The string value of each ErrorCategory member. -/
def ErrorCategory.value : ErrorCategory → String
  | .INFRASTRUCTURE => "infrastructure"
  | .APPLICATION => "application"
  | .CONFIGURATION => "configuration"
  | .DEPENDENCY => "dependency"
  | .PERFORMANCE => "performance"
  | .SECURITY => "security"
  | .DATA => "data"
  | .UNKNOWN => "unknown"

/-- The HealthState enum of `app/service_monitor.py`. -/
inductive HealthState where
  | HEALTHY
  | DEGRADED
  | UNHEALTHY
  | UNKNOWN
deriving DecidableEq, Repr

/-- The ServiceHealth dataclass of `app/service_monitor.py` (fields the
recommender reads). -/
structure ServiceHealth where
  service_id : String
  service_name : String
  service_type : String
  state : HealthState
  message : String := ""
deriving DecidableEq, Repr

/-- The AnalysisResult dataclass of `app/error_analyzer.py` (fields the
recommender reads; the list-valued remediation fields are omitted). -/
structure AnalysisResult where
  error_fingerprint : String
  error_message : String
  source_service : String
  category : ErrorCategory
  severity : ErrorSeverity
  confidence : ℚ
  root_cause : String
  impact : String := ""
  context_summary : String := ""
  recommended_action : RecommendedAction
  action_rationale : String := ""
deriving DecidableEq, Repr

/-- One entry of the recommender-local ActionHistory of
`app/action_recommender.py`; the Python dict stores the ActionType's
string value. -/
structure RecHistoryEntry where
  action_type : String
  target_service : String
  success : Bool
  timestamp : Int
deriving DecidableEq, Repr

/-- ActionHistory.get_recent_actions: entries for the service within the
trailing window (timestamps at or after the cutoff), optionally filtered
by action kind. -/
def get_recent_actions (now : Int) (hist : List RecHistoryEntry)
    (target_service : String) (action_type : Option ActionType)
    (minutes : Int) : List RecHistoryEntry :=
  let cutoff := now - minutes * 60
  hist.filter fun a =>
    !(decide (a.timestamp < cutoff)) && decide (a.target_service = target_service) &&
      (match action_type with
       | some k => decide (a.action_type = k.value)
       | none => true)

/-- ActionHistory.count_actions. -/
def count_actions (now : Int) (hist : List RecHistoryEntry)
    (target_service : String) (action_type : ActionType) (minutes : Int) : Nat :=
  (get_recent_actions now hist target_service (some action_type) minutes).length

/-- The _action_risks table built in ActionRecommender.__init__. -/
def action_risk : ActionType → ActionRisk
  | .NOTIFY => .LOW
  | .ROTATE_LOGS => .LOW
  | .CLEAR_CACHE => .LOW
  | .SCALE_UP => .MEDIUM
  | .SCALE_DOWN => .MEDIUM
  | .RESTART_SERVICE => .MEDIUM
  | .RESTART_INSTANCE => .HIGH
  | .REDEPLOY => .HIGH
  | .ESCALATE => .LOW
  | .NO_ACTION => .LOW

/-- The _action_downtime table built in ActionRecommender.__init__. -/
def action_downtime : ActionType → Nat
  | .NOTIFY => 0
  | .ROTATE_LOGS => 0
  | .CLEAR_CACHE => 5
  | .SCALE_UP => 60
  | .SCALE_DOWN => 60
  | .RESTART_SERVICE => 30
  | .RESTART_INSTANCE => 120
  | .REDEPLOY => 300
  | .ESCALATE => 0
  | .NO_ACTION => 0

/-- ActionRecommender._map_recommended_action. -/
def map_recommended_action : RecommendedAction → ActionType
  | .RESTART_SERVICE => .RESTART_SERVICE
  | .REDEPLOY => .REDEPLOY
  | .SCALE_UP => .SCALE_UP
  | .CHECK_DEPENDENCIES => .NOTIFY
  | .FIX_CONFIGURATION => .NOTIFY
  | .INVESTIGATE => .NOTIFY
  | .ESCALATE => .ESCALATE
  | .IGNORE => .NO_ACTION

/-- ActionRecommender._requires_approval. -/
def requires_approval_check (settings : ActionSettings)
    (action_type : ActionType) : Bool :=
  if action_type.value ∈ settings.require_approval_for then true
  else decide (action_type ∈ [ActionType.REDEPLOY, ActionType.RESTART_INSTANCE])

/-- ActionRecommender._is_action_allowed. -/
def is_action_allowed (now : Int) (settings : ActionSettings)
    (hist : List RecHistoryEntry) (action_type : ActionType)
    (service : String) : Bool :=
  if action_type = ActionType.RESTART_SERVICE ∧ settings.allow_restart = false then
    false
  else if action_type = ActionType.REDEPLOY ∧ settings.allow_redeploy = false then
    false
  else if action_type ∈ [ActionType.RESTART_SERVICE, ActionType.RESTART_INSTANCE] then
    if settings.max_restarts_per_hour ≤
        count_actions now hist service action_type 60 then
      false
    else if get_recent_actions now hist service (some action_type)
        (settings.cooldown_minutes : Int) ≠ [] then
      false
    else true
  else true

/-- ActionRecommender.recommend_for_analysis.  The approval callback, when
the produced plan requires approval, is fire-and-forget and does not change
the returned plan, so the embedding returns the plan directly. -/
def recommend_for_analysis (now : Int) (settings : ActionSettings)
    (hist : List RecHistoryEntry) (analysis : AnalysisResult)
    (service_health : Option ServiceHealth) : ActionPlan :=
  let primary0 := map_recommended_action analysis.recommended_action
  let primary_action :=
    if is_action_allowed now settings hist primary0 analysis.source_service then
      primary0
    else if analysis.severity.value = "critical" then ActionType.ESCALATE
    else ActionType.NOTIFY
  let primary : ActionRecommendation :=
    { action_type := primary_action
      target_service := analysis.source_service
      risk_level := action_risk primary_action
      confidence := analysis.confidence
      rationale := if analysis.action_rationale = "" then analysis.root_cause
                   else analysis.action_rationale
      requires_approval := requires_approval_check settings primary_action
      estimated_downtime_s := action_downtime primary_action
      parameters := { error_fingerprint := some analysis.error_fingerprint
                      error_category := some analysis.category.value }
      created_at := now }
  let actions := [primary]
  let actions :=
    match service_health with
    | some sh =>
      if sh.state = HealthState.UNHEALTHY then
        ({ action_type := ActionType.NOTIFY
           target_service := analysis.source_service
           risk_level := ActionRisk.LOW
           confidence := 1
           rationale := "Service is unhealthy, notifying operators"
           created_at := now } : ActionRecommendation) :: actions
      else actions
    | none => actions
  let actions :=
    if analysis.severity.value = "critical" ∧ primary_action ≠ ActionType.ESCALATE then
      actions ++ [{ action_type := ActionType.ESCALATE
                    target_service := analysis.source_service
                    risk_level := ActionRisk.LOW
                    confidence := 1
                    rationale := "Critical error requires immediate attention"
                    created_at := now }]
    else actions
  { plan_id := "plan-" ++ analysis.error_fingerprint.take 8
    trigger_source := analysis.error_fingerprint
    actions := actions
    created_at := now }

/-- A SafetyGuard state fresh from __init__ with default settings. -/
def guard0 : GuardState := init_guard_state default_action_settings

/-- Settings with the hourly restart cap lowered to 1. -/
def c4cx_settings : ActionSettings :=
  { default_action_settings with max_restarts_per_hour := 1 }

/-- Fresh guard with max_restarts_per_hour = 1 and one recorded
restart_service action on web-1 at time 0. -/
def c4cx_state : GuardState :=
  record_action 0 .RESTART_SERVICE "web-1" true (init_guard_state c4cx_settings)

/-- Fresh guard with default settings and one recorded restart_service
action on web-1 at time 0. -/
def c4w_state : GuardState :=
  record_action 0 .RESTART_SERVICE "web-1" true guard0

/-- Fresh guard with default settings after three consecutive failure
recordings for svc at times 0, 1, 2. -/
def c6w_state : GuardState :=
  record_action 2 .RESTART_SERVICE "svc" false
    (record_action 1 .RESTART_SERVICE "svc" false
      (record_action 0 .RESTART_SERVICE "svc" false guard0))

/-- A Cloud Provider API collaborator whose calls all fail. -/
def cx_client : AWSClient :=
  { reboot_instance := fun _ => false
    start_amplify_deployment := fun _ _ => none
    instance_recovery_seconds := fun _ => none }

/-- A concrete NOTIFY recommendation. -/
def notify_action : ActionRecommendation :=
  { action_type := .NOTIFY, target_service := "web-1", risk_level := .LOW,
    confidence := 1, rationale := "" }

/-- A concrete RESTART_INSTANCE recommendation with no instance_id, whose
execution therefore fails. -/
def failing_restart_action : ActionRecommendation :=
  { action_type := .RESTART_INSTANCE, target_service := "web-1",
    risk_level := .HIGH, confidence := 1, rationale := "" }

/-- A three-action plan whose middle action fails on execution. -/
def c2w_plan : ActionPlan :=
  { plan_id := "p-c2", trigger_source := "t",
    actions := [notify_action, failing_restart_action, notify_action] }

/-- A one-action plan, used with a pre-execution callback that skips it. -/
def c7cx_plan : ActionPlan :=
  { plan_id := "p-c7", trigger_source := "t", actions := [notify_action] }

/-- Default settings with allow_restart switched off (claim C9). -/
def c9_settings : ActionSettings :=
  { default_action_settings with allow_restart := false }

/-- A concrete analysis recommending restart_service with confidence 0.9 and
non-critical severity. -/
def c9w_analysis : AnalysisResult :=
  { error_fingerprint := "abcdef1234", error_message := "boom",
    source_service := "web-1", category := .APPLICATION, severity := .ERROR,
    confidence := 9 / 10, root_cause := "rc",
    recommended_action := .RESTART_SERVICE }

theorem assocLookup_assocSet {α : Type} (l : List (String × α)) (k : String) (v : α) :
    assocLookup (assocSet l k v) k = some v := by
  induction l with
  | nil => simp [assocSet, assocLookup]
  | cons p rest ih =>
    obtain ⟨k', v'⟩ := p
    by_cases h : k' = k
    · simp [assocSet, assocLookup, h]
    · simp [assocSet, assocLookup, h, ih]

/-- C1: check_action returns exactly the result of first-match evaluation of
the gating conditions in the fixed order circuit breaker, change freeze,
rate limit, cooldown, high-risk maintenance gate, approval list, allowed;
when several conditions hold simultaneously the earliest one's result is
returned. -/
theorem C1_check_action_first_match (now : Int) (action_type : ActionType)
    (target_service : String) (risk_level : ActionRisk) (s : GuardState) :
    (check_action now action_type target_service risk_level s).1 =
      check_action_priority now action_type target_service risk_level s := by
  by_cases hco : (is_circuit_open now target_service s.circuit_breakers
      s.circuit_last_failure).1 = true
  · simp [check_action, check_action_priority, hco]
  · rcases hfr : get_active_freeze now s.change_freezes with _ | fr
    · simp only [check_action, check_action_priority, check_action_tail,
        Bool.not_eq_true] at hco ⊢
      simp only [hco, hfr]
      simp only [Bool.false_eq_true, if_false]
      repeat' split
      all_goals rfl
    · by_cases hmem : action_type ∈ fr.allowed_actions
      · simp only [check_action, check_action_priority, check_action_tail,
          Bool.not_eq_true] at hco ⊢
        simp [hco, hfr, hmem]
        repeat' split
        all_goals rfl
      · simp only [check_action, check_action_priority, check_action_tail,
          Bool.not_eq_true] at hco ⊢
        simp [hco, hfr, hmem]

/-- C3 counterexample: on a fresh guard, a check of a HIGH-risk action at a
time outside the maintenance window returns REQUIRES_APPROVAL and still
appends one violation (the BLOCKED_HIGH_RISK entry), so the claimed
equivalence "violation appended iff result is BLOCKED_*" fails. -/
theorem C3_counterexample_requires_approval_records_violation :
    (check_action 0 .NOTIFY "web-1" .HIGH guard0).1 =
      SafetyCheckResult.REQUIRES_APPROVAL ∧
    (check_action 0 .NOTIFY "web-1" .HIGH guard0).2.violations.length =
      guard0.violations.length + 1 := by
  decide

/-- C3 amended: check_action appends exactly one violation iff its result is
one of the four BLOCKED_* values, or the result is REQUIRES_APPROVAL reached
through the high-risk/maintenance-window gate (logged with check_type
BLOCKED_HIGH_RISK); REQUIRES_APPROVAL from the approval-required list and
ALLOWED append none. -/
theorem C3_violation_log_characterisation (now : Int) (action_type : ActionType)
    (target_service : String) (risk_level : ActionRisk) (s : GuardState) :
    (check_action now action_type target_service risk_level s).2.violations =
      (match check_action_violation now action_type target_service risk_level s with
       | some v => push_bounded s.violations v max_violations
       | none => s.violations) ∧
    (check_action_violation now action_type target_service risk_level s).isSome =
      (is_blocked_result (check_action now action_type target_service risk_level s).1 ||
        (decide ((check_action now action_type target_service risk_level s).1 =
            SafetyCheckResult.REQUIRES_APPROVAL) &&
          decide ((risk_level = ActionRisk.HIGH ∨ risk_level = ActionRisk.CRITICAL) ∧
            is_maintenance_window now s.maintenance_windows = false))) := by
  constructor
  · by_cases hco : (is_circuit_open now target_service s.circuit_breakers
        s.circuit_last_failure).1 = true
    · simp [check_action, check_action_violation, record_violation, hco]
    · rcases hfr : get_active_freeze now s.change_freezes with _ | fr
      · simp only [check_action, check_action_violation, check_action_tail,
          check_action_tail_violation, record_violation, Bool.not_eq_true] at hco ⊢
        simp only [hco, hfr, Bool.false_eq_true, if_false]
        repeat' split
        all_goals simp_all
      · by_cases hmem : action_type ∈ fr.allowed_actions
        · simp only [check_action, check_action_violation, check_action_tail,
            check_action_tail_violation, record_violation, Bool.not_eq_true] at hco ⊢
          simp only [hco, hfr, Bool.false_eq_true, if_false, hmem, decide_not]
          simp [hmem]
          repeat' split
          all_goals simp_all
        · simp only [check_action, check_action_violation, check_action_tail,
            check_action_tail_violation, record_violation, Bool.not_eq_true] at hco ⊢
          simp [hco, hfr, hmem]
  · by_cases hco : (is_circuit_open now target_service s.circuit_breakers
        s.circuit_last_failure).1 = true
    · simp [check_action, check_action_violation, is_blocked_result, hco]
    · rcases hfr : get_active_freeze now s.change_freezes with _ | fr
      · simp only [check_action, check_action_violation, check_action_tail,
          check_action_tail_violation, Bool.not_eq_true] at hco ⊢
        simp only [hco, hfr, Bool.false_eq_true, if_false]
        repeat' split
        all_goals simp_all [is_blocked_result]
      · by_cases hmem : action_type ∈ fr.allowed_actions
        · simp only [check_action, check_action_violation, check_action_tail,
            check_action_tail_violation, Bool.not_eq_true] at hco ⊢
          simp only [hco, hfr, Bool.false_eq_true, if_false]
          simp [hmem]
          repeat' split
          all_goals simp_all [is_blocked_result]
        · simp only [check_action, check_action_violation, check_action_tail,
            check_action_tail_violation, Bool.not_eq_true] at hco ⊢
          simp [hco, hfr, hmem, is_blocked_result]

theorem is_circuit_open_requery (now : Int) (sv : String)
    (b : List (String × Nat)) (lf : List (String × Int)) :
    (is_circuit_open now sv (is_circuit_open now sv b lf).2 lf).1 =
      (is_circuit_open now sv b lf).1 := by
  unfold is_circuit_open
  rcases hb : assocLookup b sv with _ | f
  · simp [hb]
  · by_cases hf : f < circuit_threshold
    · simp [hb, hf]
    · rcases hl : assocLookup lf sv with _ | t
      · simp [hb, hf, hl]
      · by_cases ht : circuit_reset_after < now - t
        · have hf3 : ¬ f < 3 := by simpa [circuit_threshold] using hf
          simp [hb, hf, hf3, hl, ht, assocLookup_assocSet, circuit_threshold]
        · simp [hb, hf, hl, ht]

theorem check_action_snd_shape (now : Int) (action_type : ActionType)
    (target_service : String) (risk_level : ActionRisk) (s : GuardState) :
    ∃ vs, (check_action now action_type target_service risk_level s).2 =
      { s with
        circuit_breakers := (is_circuit_open now target_service
          s.circuit_breakers s.circuit_last_failure).2
        violations := vs } := by
  unfold check_action check_action_tail record_violation
  dsimp only
  repeat' split
  all_goals exact ⟨_, rfl⟩

/-- C10: check_action never touches the recorded action history (or the
settings), so the rate-limit and cooldown conditions evaluate identically
before and after any number of checks, and re-running the same check on the
resulting state returns the same result: checking can never by itself cause
BLOCKED_RATE_LIMIT or BLOCKED_COOLDOWN. -/
theorem C10_check_action_preserves_history (now : Int) (action_type : ActionType)
    (target_service : String) (risk_level : ActionRisk) (s : GuardState) :
    (check_action now action_type target_service risk_level s).2.action_history =
      s.action_history ∧
    (check_action now action_type target_service risk_level s).2.settings =
      s.settings ∧
    check_rate_limit now action_type target_service
        (check_action now action_type target_service risk_level s).2.action_history
        (check_action now action_type target_service risk_level s).2.settings =
      check_rate_limit now action_type target_service s.action_history s.settings ∧
    check_cooldown now action_type target_service
        (check_action now action_type target_service risk_level s).2.action_history
        (check_action now action_type target_service risk_level s).2.settings =
      check_cooldown now action_type target_service s.action_history s.settings ∧
    (check_action now action_type target_service risk_level
        (check_action now action_type target_service risk_level s).2).1 =
      (check_action now action_type target_service risk_level s).1 := by
  obtain ⟨vs, hs⟩ := check_action_snd_shape now action_type target_service risk_level s
  refine ⟨by rw [hs], by rw [hs], by rw [hs], by rw [hs], ?_⟩
  rw [hs]
  have hcb := is_circuit_open_requery now target_service s.circuit_breakers
    s.circuit_last_failure
  by_cases hco : (is_circuit_open now target_service s.circuit_breakers
      s.circuit_last_failure).1 = true
  · have hco2 : (is_circuit_open now target_service
        (is_circuit_open now target_service s.circuit_breakers
          s.circuit_last_failure).2 s.circuit_last_failure).1 = true := by
      rw [hcb]; exact hco
    simp [check_action, hco, hco2]
  · rw [Bool.not_eq_true] at hco
    have hco2 : (is_circuit_open now target_service
        (is_circuit_open now target_service s.circuit_breakers
          s.circuit_last_failure).2 s.circuit_last_failure).1 = false := by
      rw [hcb]; exact hco
    rcases hfr : get_active_freeze now s.change_freezes with _ | fr
    · simp only [check_action, check_action_tail, record_violation, hco, hco2,
        hfr, Bool.false_eq_true, if_false]
      repeat' split
      all_goals rfl
    · by_cases hmem : action_type ∈ fr.allowed_actions
      · simp only [check_action, check_action_tail, record_violation, hco, hco2,
          hfr, Bool.false_eq_true, if_false]
        simp only [hmem, if_true, if_pos hmem]
        repeat' split
        all_goals rfl
      · simp only [check_action, check_action_tail, record_violation, hco, hco2,
          hfr, Bool.false_eq_true, if_false]
        simp [hmem]

theorem filter_time_split (l : List ActionRecord) (sv : String) (k : ActionType)
    (cutoff : Int) :
    (l.filter fun r => decide (r.target_service = sv) &&
        decide (r.action_type = k) && decide (cutoff < r.timestamp)) =
      ((l.filter fun r => decide (r.target_service = sv) &&
        decide (r.action_type = k)).filter fun r => decide (cutoff < r.timestamp)) := by
  induction l with
  | nil => rfl
  | cons a t ih =>
    by_cases h1 : a.target_service = sv <;> by_cases h2 : a.action_type = k <;>
      by_cases h3 : cutoff < a.timestamp <;>
      simp [List.filter_cons, h1, h2, h3, ih]

/-- C4 counterexample: with max_restarts_per_hour configured to 1, a single
recorded restart_service action on web-1 makes a check 60 seconds later
(well inside the 10-minute cooldown, circuit closed, no freeze) return
BLOCKED_RATE_LIMIT, not the claimed BLOCKED_COOLDOWN. -/
theorem C4_counterexample_rate_limit_preempts_cooldown :
    (check_action 60 .RESTART_SERVICE "web-1" .MEDIUM c4cx_state).1 =
      SafetyCheckResult.BLOCKED_RATE_LIMIT ∧
    (check_action 60 .RESTART_SERVICE "web-1" .MEDIUM c4cx_state).1 ≠
      SafetyCheckResult.BLOCKED_COOLDOWN := by
  decide

/-- C4 amended: for a rate-limited kind with the circuit closed, no active
change freeze, and max_restarts_per_hour at least 2, when the history holds
exactly one record of kind K on S (at time t0), a check strictly within
cooldown_minutes of t0 returns BLOCKED_COOLDOWN, and a check strictly after
the cooldown window does not return BLOCKED_COOLDOWN.  (With
max_restarts_per_hour at most 1 the rate-limit check fires first and the
call returns BLOCKED_RATE_LIMIT instead.) -/
theorem C4_cooldown_window (now t0 : Int) (k : ActionType) (sv : String)
    (risk : ActionRisk) (s : GuardState) (r0 : ActionRecord)
    (hk : k ∈ rate_limited_kinds)
    (hhist : (s.action_history.filter fun r => decide (r.target_service = sv) &&
      decide (r.action_type = k)) = [r0])
    (ht0 : r0.timestamp = t0)
    (hcirc : (is_circuit_open now sv s.circuit_breakers s.circuit_last_failure).1 = false)
    (hfreeze : get_active_freeze now s.change_freezes = none)
    (hmax : 2 ≤ s.settings.max_restarts_per_hour) :
    (now - t0 < (s.settings.cooldown_minutes : Int) * 60 →
      (check_action now k sv risk s).1 = SafetyCheckResult.BLOCKED_COOLDOWN) ∧
    ((s.settings.cooldown_minutes : Int) * 60 < now - t0 →
      (check_action now k sv risk s).1 ≠ SafetyCheckResult.BLOCKED_COOLDOWN) := by
  have hrate : check_rate_limit now k sv s.action_history s.settings = true := by
    simp only [check_rate_limit, if_pos hk]
    rw [filter_time_split, hhist]
    by_cases htr : now - 3600 < r0.timestamp <;>
      simp [List.filter_cons, htr, decide_eq_true_eq] <;> omega
  constructor
  · intro hwithin
    have hcool : check_cooldown now k sv s.action_history s.settings = false := by
      simp only [check_cooldown, if_pos hk]
      rw [filter_time_split, hhist]
      have : now - (s.settings.cooldown_minutes : Int) * 60 < r0.timestamp := by omega
      simp [List.filter_cons, this]
    simp [check_action, check_action_tail, hcirc, hfreeze, hrate, hcool]
  · intro hafter
    have hcool : check_cooldown now k sv s.action_history s.settings = true := by
      simp only [check_cooldown, if_pos hk]
      rw [filter_time_split, hhist]
      have : ¬ (now - (s.settings.cooldown_minutes : Int) * 60 < r0.timestamp) := by omega
      simp [List.filter_cons, this]
    simp only [check_action, check_action_tail, hcirc, hfreeze, hrate, hcool,
      Bool.false_eq_true, Bool.true_eq_false, if_false]
    repeat' split
    all_goals simp

/-- C4 witness: with the default settings (max 3 per hour, 10-minute
cooldown) and one recorded restart at time 0, a check at time 60 returns
BLOCKED_COOLDOWN. -/
theorem C4_witness :
    (check_action 60 .RESTART_SERVICE "web-1" .MEDIUM c4w_state).1 =
      SafetyCheckResult.BLOCKED_COOLDOWN :=
  (C4_cooldown_window 60 0 .RESTART_SERVICE "web-1" .MEDIUM c4w_state
      { action_type := .RESTART_SERVICE, target_service := "web-1",
        timestamp := 0, success := true }
      (by decide) (by decide) rfl (by decide) (by decide) (by decide)).1
    (by decide)

/-- C2: executing a three-action plan with stop_on_failure, no pre-execution
callback, a non-failing first action and a failing second action yields
exactly two action results and overall status FAILED; the third action is
never dispatched. -/
theorem C2_stop_on_failure_two_results (client : AWSClient) (now : Int)
    (dry_run : Bool) (plan : ActionPlan) (a1 a2 a3 : ActionRecommendation)
    (hacts : plan.actions = [a1, a2, a3])
    (h1 : (execute_action client now a1 dry_run).status ≠ ExecutionStatus.FAILED)
    (h2 : (execute_action client now a2 dry_run).status = ExecutionStatus.FAILED) :
    (execute_plan client none now plan dry_run true).1.action_results.length = 2 ∧
    (execute_plan client none now plan dry_run true).1.overall_status =
      ExecutionStatus.FAILED := by
  constructor <;>
    simp [execute_plan, hacts, execute_plan_loop, pre_skips, h1, h2]

/-- C2 witness: a concrete three-action plan (NOTIFY, RESTART_INSTANCE with
no instance_id, NOTIFY) executed without dry run stops after two results
with overall status FAILED. -/
theorem C2_witness :
    (execute_plan cx_client none 0 c2w_plan false true).1.action_results.length = 2 ∧
    (execute_plan cx_client none 0 c2w_plan false true).1.overall_status =
      ExecutionStatus.FAILED :=
  C2_stop_on_failure_two_results cx_client 0 false c2w_plan notify_action
    failing_restart_action notify_action rfl (by decide) (by decide)

theorem record_fail_lookup (now : Int) (k : ActionType) (sv : String)
    (s : GuardState) :
    assocLookup (record_action now k sv false s).circuit_breakers sv =
      some ((assocLookup s.circuit_breakers sv).getD 0 + 1) := by
  simp [record_action, record_failure, assocLookup_assocSet]

theorem record_fail_last_failure (now : Int) (k : ActionType) (sv : String)
    (s : GuardState) :
    assocLookup (record_action now k sv false s).circuit_last_failure sv =
      some now := by
  simp [record_action, record_failure, assocLookup_assocSet]

/-- C5: after three consecutive failure recordings for a service with no
intervening success, is_open queried within reset_after of the last failure
answers true; after one subsequent success recording the counter is 0 and
is_open answers false at any query time. -/
theorem C5_circuit_opens_after_three_failures (s : GuardState) (sv : String)
    (k1 k2 k3 k4 : ActionType) (t1 t2 t3 tq t4 t5 : Int)
    (hwin : tq - t3 ≤ 1800) :
    (is_circuit_open tq sv
        (record_action t3 k3 sv false (record_action t2 k2 sv false
          (record_action t1 k1 sv false s))).circuit_breakers
        (record_action t3 k3 sv false (record_action t2 k2 sv false
          (record_action t1 k1 sv false s))).circuit_last_failure).1 = true ∧
    assocLookup (record_action t4 k4 sv true
        (record_action t3 k3 sv false (record_action t2 k2 sv false
          (record_action t1 k1 sv false s)))).circuit_breakers sv = some 0 ∧
    (is_circuit_open t5 sv
        (record_action t4 k4 sv true
          (record_action t3 k3 sv false (record_action t2 k2 sv false
            (record_action t1 k1 sv false s)))).circuit_breakers
        (record_action t4 k4 sv true
          (record_action t3 k3 sv false (record_action t2 k2 sv false
            (record_action t1 k1 sv false s)))).circuit_last_failure).1 = false := by
  have h1 := record_fail_lookup t1 k1 sv s
  have h2 := record_fail_lookup t2 k2 sv (record_action t1 k1 sv false s)
  rw [h1] at h2
  have h3 := record_fail_lookup t3 k3 sv
    (record_action t2 k2 sv false (record_action t1 k1 sv false s))
  rw [h2] at h3
  simp only [Option.getD_some] at h2 h3
  have hlf := record_fail_last_failure t3 k3 sv
    (record_action t2 k2 sv false (record_action t1 k1 sv false s))
  have hnot3 : ¬ ((assocLookup s.circuit_breakers sv).getD 0 + 1 + 1 + 1 <
      circuit_threshold) := by
    simp only [circuit_threshold]
    omega
  have hnotreset : ¬ (circuit_reset_after < tq - t3) := by
    simp only [circuit_reset_after]
    omega
  set s3 : GuardState := record_action t3 k3 sv false (record_action t2 k2 sv false
    (record_action t1 k1 sv false s)) with hs3
  have h4 : assocLookup (record_action t4 k4 sv true s3).circuit_breakers sv =
      some 0 := by
    simp [record_action, record_success, h3, assocLookup_assocSet]
  refine ⟨?_, h4, ?_⟩
  · simp [is_circuit_open, h3, hlf, hnot3, hnotreset]
  · have hlast : (record_action t4 k4 sv true s3).circuit_last_failure =
        s3.circuit_last_failure := by
      simp [record_action, record_success]
      split <;> rfl
    simp [is_circuit_open, h4, circuit_threshold]

/-- C5 witness: three failures for svc at times 0, 1, 2 open the circuit at
query time 100; a success recording at time 3 resets the counter to 0 and
the circuit is closed at query time 4. -/
theorem C5_witness :
    (is_circuit_open 100 "svc" c6w_state.circuit_breakers
      c6w_state.circuit_last_failure).1 = true ∧
    assocLookup (record_action 3 .NOTIFY "svc" true c6w_state).circuit_breakers
      "svc" = some 0 ∧
    (is_circuit_open 4 "svc"
      (record_action 3 .NOTIFY "svc" true c6w_state).circuit_breakers
      (record_action 3 .NOTIFY "svc" true c6w_state).circuit_last_failure).1 =
      false :=
  C5_circuit_opens_after_three_failures guard0 "svc" .RESTART_SERVICE
    .RESTART_SERVICE .RESTART_SERVICE .NOTIFY 0 1 2 100 3 4 (by decide)

/-- C6: for a service whose failure counter is at least the threshold, once
more than reset_after elapsed since the recorded last failure, the next
is_open query answers false and resets the counter to 0 as a side effect. -/
theorem C6_circuit_lazy_reset (now t0 : Int) (sv : String) (s : GuardState)
    (f : Nat) (hf : assocLookup s.circuit_breakers sv = some f) (h3 : 3 ≤ f)
    (hl : assocLookup s.circuit_last_failure sv = some t0)
    (ht : 1800 < now - t0) :
    is_circuit_open now sv s.circuit_breakers s.circuit_last_failure =
      (false, assocSet s.circuit_breakers sv 0) ∧
    assocLookup (is_circuit_open now sv s.circuit_breakers
      s.circuit_last_failure).2 sv = some 0 := by
  have hlt : ¬ f < circuit_threshold := by
    simp only [circuit_threshold]
    omega
  have hres : circuit_reset_after < now - t0 := by
    simpa [circuit_reset_after] using ht
  constructor
  · simp [is_circuit_open, hf, hlt, hl, hres]
  · simp [is_circuit_open, hf, hlt, hl, hres, assocLookup_assocSet]

/-- C6 witness: after failures at times 0, 1, 2 the counter for svc is 3;
querying at time 2000 (1998 seconds after the last failure, past the
1800-second reset window) answers false and stores counter 0. -/
theorem C6_witness :
    is_circuit_open 2000 "svc" c6w_state.circuit_breakers
      c6w_state.circuit_last_failure =
      (false, assocSet c6w_state.circuit_breakers "svc" 0) ∧
    assocLookup (is_circuit_open 2000 "svc" c6w_state.circuit_breakers
      c6w_state.circuit_last_failure).2 "svc" = some 0 :=
  C6_circuit_lazy_reset 2000 2 "svc" c6w_state 3 (by decide) (by decide)
    (by decide) (by decide)

theorem wait_recovery_started (client : AWSClient) (iid : String)
    (r : ExecutionResult) :
    (wait_for_instance_recovery client iid r).started_at = r.started_at := by
  unfold wait_for_instance_recovery
  split <;> rfl

theorem restart_service_exec_started (client : AWSClient)
    (a : ActionRecommendation) (r : ExecutionResult) :
    (restart_service_exec client a r).started_at = r.started_at := by
  simp only [restart_service_exec]
  repeat' split
  all_goals rfl

theorem restart_instance_exec_started (client : AWSClient)
    (a : ActionRecommendation) (r : ExecutionResult) :
    (restart_instance_exec client a r).started_at = r.started_at := by
  simp only [restart_instance_exec]
  repeat' split
  all_goals simp [wait_recovery_started]

theorem redeploy_exec_started (client : AWSClient)
    (a : ActionRecommendation) (r : ExecutionResult) :
    (redeploy_exec client a r).started_at = r.started_at := by
  simp only [redeploy_exec]
  repeat' split
  all_goals rfl

theorem execute_action_started (client : AWSClient) (now : Int)
    (a : ActionRecommendation) (dry_run : Bool) :
    (execute_action client now a dry_run).started_at = some now := by
  simp only [execute_action]
  repeat' split
  all_goals simp [restart_service_exec_started, restart_instance_exec_started,
    redeploy_exec_started]

theorem execute_plan_loop_trace (client : AWSClient)
    (pre_cb : Option (ActionRecommendation → Bool)) (now : Int)
    (dry_run stop_on_failure : Bool) (acts : List ActionRecommendation) :
    (execute_plan_loop client pre_cb now dry_run stop_on_failure acts).2.1 =
      (execute_plan_loop client pre_cb now dry_run stop_on_failure acts).1.filter
        (fun r => r.started_at.isSome) := by
  induction acts with
  | nil => rfl
  | cons a rest ih =>
    by_cases hp : pre_skips pre_cb a
    · simp [execute_plan_loop, hp, List.filter_cons, ih]
    · by_cases hf : (execute_action client now a dry_run).status =
          ExecutionStatus.FAILED ∧ stop_on_failure = true
      · simp [execute_plan_loop, hp, hf, List.filter_cons, execute_action_started]
      · simp [execute_plan_loop, hp, hf, List.filter_cons, ih,
          execute_action_started]

/-- C7 counterexample: a one-action plan run with a pre-execution callback
returning false records the action as SKIPPED in action_results, yet the
post-execution callback is never invoked (empty trace) — the loop continues
before the post-callback call, refuting "invoked after every processed
action including pre-skipped ones". -/
theorem C7_counterexample_preskip_no_post_callback :
    ((execute_plan cx_client (some fun _ => false) 0 c7cx_plan false
      true).1.action_results.map fun r => r.status) = [ExecutionStatus.SKIPPED] ∧
    (execute_plan cx_client (some fun _ => false) 0 c7cx_plan false true).2 =
      [] :=
  ⟨rfl, rfl⟩

/-- C7 amended: the post-execution callback is invoked exactly once, in
order, for each action that is dispatched to _execute_action before the
loop halts — equivalently the callback trace equals the action_results
entries having a started_at timestamp; actions recorded as SKIPPED by the
pre-execution callback (which have no started_at) trigger no post
callback. -/
theorem C7_post_callback_per_dispatched_action (client : AWSClient)
    (pre_cb : Option (ActionRecommendation → Bool)) (now : Int)
    (plan : ActionPlan) (dry_run stop_on_failure : Bool) :
    (execute_plan client pre_cb now plan dry_run stop_on_failure).2 =
      (execute_plan client pre_cb now plan dry_run
        stop_on_failure).1.action_results.filter
        (fun r => r.started_at.isSome) := by
  simp [execute_plan, execute_plan_loop_trace]

/-- C8 (code bug): execute_single_action evaluates action.risk_level before
the local variable action is bound, so every call raises UnboundLocalError
and never returns the ExecutionResult that the shared dispatch
(_execute_action) would produce — shown at a concrete input where the
dispatch itself succeeds. -/
theorem C8_execute_single_action_always_raises :
    execute_single_action cx_client 0 .NOTIFY "web-1" {} true =
      Except.error
        "UnboundLocalError: local variable action referenced before assignment" ∧
    (execute_action cx_client 0 notify_action true).status =
      ExecutionStatus.SUCCESS :=
  ⟨rfl, rfl⟩

theorem severity_value_ne_critical {sev : ErrorSeverity}
    (h : sev ≠ ErrorSeverity.CRITICAL) : sev.value ≠ "critical" := by
  cases sev
  · exact absurd rfl h
  all_goals decide

/-- C9: with allow_restart switched off and otherwise default settings, an
analysis recommending restart_service with non-critical severity and
confidence 0.9, no unhealthy service-health input and empty action history
produces a plan whose actions are exactly one NOTIFY recommendation with
requires_approval false, and executing that action without dry run yields
status SUCCESS. -/
theorem C9_restart_disallowed_notify_substitute (now now2 : Int)
    (client : AWSClient) (analysis : AnalysisResult) (sh : Option ServiceHealth)
    (hrec : analysis.recommended_action = RecommendedAction.RESTART_SERVICE)
    (hsev : analysis.severity ≠ ErrorSeverity.CRITICAL)
    (_hconf : analysis.confidence = 9 / 10)
    (hsh : ∀ h, sh = some h → h.state ≠ HealthState.UNHEALTHY) :
    ((recommend_for_analysis now c9_settings [] analysis sh).actions.map
      fun a => a.action_type) = [ActionType.NOTIFY] ∧
    (recommend_for_analysis now c9_settings [] analysis sh).plan_requires_approval =
      false ∧
    ((recommend_for_analysis now c9_settings [] analysis sh).actions.map
      fun a => (execute_action client now2 a false).status) =
      [ExecutionStatus.SUCCESS] := by
  have hsevv : analysis.severity.value ≠ "critical" := severity_value_ne_critical hsev
  have hallowed : is_action_allowed now c9_settings [] ActionType.RESTART_SERVICE
      analysis.source_service = false := by
    simp [is_action_allowed, c9_settings, default_action_settings]
  have happrove : requires_approval_check c9_settings ActionType.NOTIFY = false := by
    decide
  rcases sh with _ | h0
  · refine ⟨?_, ?_, ?_⟩ <;>
      simp [recommend_for_analysis, hrec, map_recommended_action, hallowed,
        hsevv, happrove, ActionPlan.plan_requires_approval, execute_action]
  · have hstate : ¬ h0.state = HealthState.UNHEALTHY := hsh h0 rfl
    refine ⟨?_, ?_, ?_⟩ <;>
      simp [recommend_for_analysis, hrec, map_recommended_action, hallowed,
        hsevv, hstate, happrove, ActionPlan.plan_requires_approval,
        execute_action]

/-- C9 witness: a concrete analysis (restart_service recommendation, error
severity, confidence 0.9) under allow_restart=false yields exactly one
NOTIFY action, no approval requirement, and SUCCESS on execution. -/
theorem C9_witness :
    ((recommend_for_analysis 0 c9_settings [] c9w_analysis none).actions.map
      fun a => a.action_type) = [ActionType.NOTIFY] ∧
    (recommend_for_analysis 0 c9_settings [] c9w_analysis none).plan_requires_approval =
      false ∧
    ((recommend_for_analysis 0 c9_settings [] c9w_analysis none).actions.map
      fun a => (execute_action cx_client 5 a false).status) =
      [ExecutionStatus.SUCCESS] :=
  C9_restart_disallowed_notify_substitute 0 5 cx_client c9w_analysis none rfl
    (by decide) rfl (fun h hh => by cases hh)
